import Mathlib

/-!
Shallow embedding of `src/src/App.jsx` (a single React component wiring
Firebase Auth and Firestore) and proofs of the specification claims.

Modelling conventions:
* Firestore's `userProfiles` collection is a function `Store` from document
  keys (uids) to optional `UserProfile` documents.
* JavaScript string-or-null values are `Option String`; `a || b` and the
  `x || null` defaulting used at the profile write sites are `jsOr` and
  `jsOrNull` (the empty string is falsy, as in JavaScript).
* Each handler is a total function from its external-call outcomes, the
  store and the component state to an `Out` record carrying the new store,
  the new component state, the list of document-store calls that completed
  (`ops`) and the list of uids passed to `fetchUserData` (`fetchCalls`).
  Exceptions thrown by the external services are modelled by `Except`
  outcomes and by fault fields (`some m` makes the corresponding call throw
  with message `m`); the `catch` blocks of the source become the
  corresponding branches, so a handler returning a value at all models the
  fact that no exception escapes the handler boundary.
* `new Date()` is a `now : Nat` parameter.
-/

namespace AppJsx

/-- Truthiness of a JavaScript string-or-null value: `null` and the empty
string are falsy, every other string is truthy. -/
def jsTruthy : Option String → Bool
  | none => false
  | some s => s != ""

/-- JavaScript `a || b` on string-or-null values. -/
def jsOr (a b : Option String) : Option String :=
  if jsTruthy a then a else b

/-- JavaScript `v || null`, the defaulting used at all four profile write
sites of App.jsx. -/
def jsOrNull (v : Option String) : Option String :=
  if jsTruthy v then v else none

/-- Rendering of a string-or-null value inside a template literal:
JavaScript prints `null` for the null value. -/
def renderJs : Option String → String
  | some s => s
  | none => "null"

/-- The user record delivered by Firebase Auth (the fields of it that
App.jsx reads). -/
structure UserRecord where
  uid : String
  email : Option String
  displayName : Option String
  photoURL : Option String
deriving DecidableEq

/-- A document of the `userProfiles` collection, as written by App.jsx. -/
structure UserProfile where
  uid : String
  email : Option String
  displayName : Option String
  photoURL : Option String
  createdAt : Nat
  score : Int
deriving DecidableEq

/-- The `userProfiles` collection: document key (uid) to optional document. -/
def Store := String → Option UserProfile

/-- Firestore `setDoc`: overwrites the document at key `k` wholesale. -/
def Store.setD (s : Store) (k : String) (v : UserProfile) : Store :=
  fun k2 => if k2 = k then some v else s k2

/-- A completed document-store call: `getDoc` on a key, or `setDoc` of a
value at a key. -/
inductive StoreOp where
  | get (key : String)
  | set (key : String) (value : UserProfile)
deriving DecidableEq

/-- Whether a store operation is a read. -/
def StoreOp.isGet : StoreOp → Bool
  | .get _ => true
  | .set _ _ => false

/-- The React component state of App.jsx: `user`, `email`, `password`,
`authMessage`, `userData`. -/
structure AppState where
  user : Option UserRecord
  email : String
  password : String
  authMessage : String
  userData : Option UserProfile
deriving DecidableEq

/-- Result of running one handler: the store and component state after it,
the document-store calls that completed (in order), and the uids with which
`fetchUserData` was invoked. -/
structure Out where
  store : Store
  state : AppState
  ops : List StoreOp
  fetchCalls : List String

/-- The profile document built at App.jsx lines 53-60 (inside
`fetchUserData`), keyed by the `uid` argument. -/
def fetchProfile (uid : String) (cur : UserRecord) (now : Nat) : UserProfile :=
  { uid := uid
    email := jsOrNull cur.email
    displayName := jsOrNull cur.displayName
    photoURL := jsOrNull cur.photoURL
    createdAt := now
    score := 0 }

/-- The profile document built at App.jsx lines 103-110 (inside
`handleRedirectResult`), keyed by `user.uid`. -/
def redirectProfile (u : UserRecord) (now : Nat) : UserProfile :=
  { uid := u.uid
    email := jsOrNull u.email
    displayName := jsOrNull u.displayName
    photoURL := jsOrNull u.photoURL
    createdAt := now
    score := 0 }

/-- The profile document built at App.jsx lines 134-141 (inside
`handleSignUp`), keyed by `userCredential.user.uid`. -/
def signUpProfile (u : UserRecord) (now : Nat) : UserProfile :=
  { uid := u.uid
    email := jsOrNull u.email
    displayName := jsOrNull u.displayName
    photoURL := jsOrNull u.photoURL
    createdAt := now
    score := 0 }

/-- The profile document built at App.jsx lines 173-180 (inside
`handleGoogleSignInPopup`), keyed by `result.user.uid`. -/
def popupProfile (u : UserRecord) (now : Nat) : UserProfile :=
  { uid := u.uid
    email := jsOrNull u.email
    displayName := jsOrNull u.displayName
    photoURL := jsOrNull u.photoURL
    createdAt := now
    score := 0 }

/-- Fault switches for the three Firestore calls inside `fetchUserData`
(first `getDoc`, `setDoc`, re-read `getDoc`): `some m` makes that call
throw with message `m`. -/
structure FsFaults where
  get1 : Option String
  set1 : Option String
  get2 : Option String
deriving DecidableEq

/-- No Firestore call throws. -/
def noFsFaults : FsFaults := { get1 := none, set1 := none, get2 := none }

/-- App.jsx lines 31-70, `fetchUserData(uid, currentUserObject)`: guards a
falsy uid, reads the profile; if present displays it, else writes a new
profile, re-reads it and displays the re-read document; any thrown error is
caught, sets the Firestore error message and clears `userData`. -/
def fetchUserData (uid : String) (cur : UserRecord) (now : Nat) (f : FsFaults)
    (store : Store) (st : AppState) : Out :=
  if uid = "" then
    let stE := { st with authMessage := "No user logged in to fetch data.", userData := none }
    { store := store, state := stE, ops := [], fetchCalls := [] }
  else
    let st1 := { st with authMessage := "Fetching data for UID: " ++ uid ++ "..." }
    match f.get1 with
    | some m =>
        let stC := { st1 with authMessage := "Firestore Data Error: " ++ m, userData := none }
        { store := store, state := stC, ops := [], fetchCalls := [] }
    | none =>
      match store uid with
      | some p =>
          let stF := { st1 with userData := some p, authMessage := "User data fetched for " ++ uid ++ ". Check console." }
          { store := store, state := stF, ops := [StoreOp.get uid], fetchCalls := [] }
      | none =>
        match f.set1 with
        | some m =>
            let stC := { st1 with authMessage := "Firestore Data Error: " ++ m, userData := none }
            { store := store, state := stC, ops := [StoreOp.get uid], fetchCalls := [] }
        | none =>
          let p := fetchProfile uid cur now
          let store2 := store.setD uid p
          match f.get2 with
          | some m =>
              let stC := { st1 with authMessage := "Firestore Data Error: " ++ m, userData := none }
              { store := store2, state := stC, ops := [StoreOp.get uid, StoreOp.set uid p], fetchCalls := [] }
          | none =>
              let stN := { st1 with userData := store2 uid, authMessage := "New profile created and fetched for " ++ uid ++ "." }
              { store := store2, state := stN, ops := [StoreOp.get uid, StoreOp.set uid p, StoreOp.get uid], fetchCalls := [] }

/-- The literal `Anonymous` from App.jsx line 77. -/
def anonymousStr : String := "Anonymous"

/-- The value rendered at App.jsx line 77:
`currentUser.email || currentUser.displayName || 'Anonymous'`. -/
def loggedInName (u : UserRecord) : String :=
  renderJs (jsOr (jsOr u.email u.displayName) (some anonymousStr))

/-- App.jsx lines 74-87, the `onAuthStateChanged` callback: stores the
current user; when it is non-null, sets the logged-in message and invokes
`fetchUserData` with the uid and the full user record (line 81, the only
call site of `fetchUserData` in the program); when it is null, sets the
logged-out message and clears `userData`. -/
def authCallback (currentUser : Option UserRecord) (now : Nat) (f : FsFaults)
    (store : Store) (st : AppState) : Out :=
  match currentUser with
  | some u =>
      let st1 := { st with user := some u, authMessage := "Logged in as: " ++ loggedInName u }
      let r := fetchUserData u.uid u now f store st1
      { r with fetchCalls := [u.uid] }
  | none =>
      let st1 := { st with user := none, authMessage := "Not logged in", userData := none }
      { store := store, state := st1, ops := [], fetchCalls := [] }

/-- Fault switches for a `getDoc` followed by a conditional `setDoc`
(the pattern of `handleRedirectResult` and `handleGoogleSignInPopup`). -/
structure GetSetFaults where
  get1 : Option String
  set1 : Option String
deriving DecidableEq

/-- Neither the read nor the conditional write throws. -/
def noGetSetFaults : GetSetFaults := { get1 := none, set1 := none }

/-- App.jsx lines 91-118, `handleRedirectResult`: consumes a pending
federated-redirect result; when one is present, reads the profile and
writes one only if absent (no re-read, `userData` untouched); any thrown
error is caught and rendered as the redirect error message. -/
def handleRedirectResult (result : Except String (Option UserRecord)) (now : Nat)
    (f : GetSetFaults) (store : Store) (st : AppState) : Out :=
  match result with
  | .error m =>
      let stC := { st with authMessage := "Redirect Sign In Error: " ++ m }
      { store := store, state := stC, ops := [], fetchCalls := [] }
  | .ok none =>
      { store := store, state := st, ops := [], fetchCalls := [] }
  | .ok (some u) =>
      let st1 := { st with authMessage := "Successfully signed in with redirect: " ++ renderJs (jsOr u.email u.displayName) }
      match f.get1 with
      | some m =>
          let stC := { st1 with authMessage := "Redirect Sign In Error: " ++ m }
          { store := store, state := stC, ops := [], fetchCalls := [] }
      | none =>
        match store u.uid with
        | some _ =>
            { store := store, state := st1, ops := [StoreOp.get u.uid], fetchCalls := [] }
        | none =>
          match f.set1 with
          | some m =>
              let stC := { st1 with authMessage := "Redirect Sign In Error: " ++ m }
              { store := store, state := stC, ops := [StoreOp.get u.uid], fetchCalls := [] }
          | none =>
              let p := redirectProfile u now
              { store := store.setD u.uid p, state := st1, ops := [StoreOp.get u.uid, StoreOp.set u.uid p], fetchCalls := [] }

/-- App.jsx lines 128-149, `handleSignUp`: sets the signing-up message,
creates the account, and on success immediately writes the profile document
with no prior read; any thrown error is caught and rendered as the sign-up
error message. -/
def handleSignUp (result : Except String UserRecord) (setErr : Option String)
    (now : Nat) (store : Store) (st : AppState) : Out :=
  let st1 := { st with authMessage := "Signing up..." }
  match result with
  | .error m =>
      let stC := { st1 with authMessage := "Sign Up Error: " ++ m }
      { store := store, state := stC, ops := [], fetchCalls := [] }
  | .ok u =>
    match setErr with
    | some m =>
        let stC := { st1 with authMessage := "Sign Up Error: " ++ m }
        { store := store, state := stC, ops := [], fetchCalls := [] }
    | none =>
        let p := signUpProfile u now
        { store := store.setD u.uid p, state := st1, ops := [StoreOp.set u.uid p], fetchCalls := [] }

/-- App.jsx lines 151-161, `handleSignIn`: sets the signing-in message and
signs in; on success it does nothing further (the listener updates the UI);
a thrown error is caught and rendered as the sign-in error message. -/
def handleSignIn (result : Except String Unit) (store : Store) (st : AppState) : Out :=
  let st1 := { st with authMessage := "Signing in..." }
  match result with
  | .error m =>
      let stC := { st1 with authMessage := "Sign In Error: " ++ m }
      { store := store, state := stC, ops := [], fetchCalls := [] }
  | .ok _ =>
      { store := store, state := st1, ops := [], fetchCalls := [] }

/-- App.jsx lines 163-188, `handleGoogleSignInPopup`: sets the popup
message, signs in with a popup, then reads the profile and writes one only
if absent (`userData` untouched); any thrown error is caught and rendered
as the popup error message. -/
def handleGoogleSignInPopup (result : Except String UserRecord) (f : GetSetFaults)
    (now : Nat) (store : Store) (st : AppState) : Out :=
  let st1 := { st with authMessage := "Signing in with Google (Popup)..." }
  match result with
  | .error m =>
      let stC := { st1 with authMessage := "Google Sign In Error (Popup): " ++ m }
      { store := store, state := stC, ops := [], fetchCalls := [] }
  | .ok u =>
    match f.get1 with
    | some m =>
        let stC := { st1 with authMessage := "Google Sign In Error (Popup): " ++ m }
        { store := store, state := stC, ops := [], fetchCalls := [] }
    | none =>
      match store u.uid with
      | some _ =>
          { store := store, state := st1, ops := [StoreOp.get u.uid], fetchCalls := [] }
      | none =>
        match f.set1 with
        | some m =>
            let stC := { st1 with authMessage := "Google Sign In Error (Popup): " ++ m }
            { store := store, state := stC, ops := [StoreOp.get u.uid], fetchCalls := [] }
        | none =>
            let p := popupProfile u now
            { store := store.setD u.uid p, state := st1, ops := [StoreOp.get u.uid, StoreOp.set u.uid p], fetchCalls := [] }

/-- App.jsx lines 191-202, `handleGoogleSignInRedirect`: sets the
redirecting message and starts the redirect; a thrown error is caught and
rendered as the redirect error message. -/
def handleGoogleSignInRedirect (result : Except String Unit) (store : Store)
    (st : AppState) : Out :=
  let st1 := { st with authMessage := "Redirecting for Google Sign In..." }
  match result with
  | .error m =>
      let stC := { st1 with authMessage := "Google Sign In Error (Redirect): " ++ m }
      { store := store, state := stC, ops := [], fetchCalls := [] }
  | .ok _ =>
      { store := store, state := st1, ops := [], fetchCalls := [] }

/-- App.jsx lines 205-215, `handleSignOut`: sets the signing-out message
and signs out; a thrown error is caught and rendered as the sign-out error
message. -/
def handleSignOut (result : Except String Unit) (store : Store) (st : AppState) : Out :=
  let st1 := { st with authMessage := "Signing out..." }
  match result with
  | .error m =>
      let stC := { st1 with authMessage := "Sign Out Error: " ++ m }
      { store := store, state := stC, ops := [], fetchCalls := [] }
  | .ok _ =>
      { store := store, state := st1, ops := [], fetchCalls := [] }

/-- An event delivered to the component: an auth-state notification, the
redirect-result consumption on mount, or a button click. Each event carries
the outcomes of the external calls the corresponding handler makes. -/
inductive Event where
  | authChange (u : Option UserRecord) (f : FsFaults)
  | redirectResult (r : Except String (Option UserRecord)) (f : GetSetFaults)
  | clickSignUp (r : Except String UserRecord) (setErr : Option String)
  | clickSignIn (r : Except String Unit)
  | clickPopup (r : Except String UserRecord) (f : GetSetFaults)
  | clickRedirect (r : Except String Unit)
  | clickSignOut (r : Except String Unit)

/-- Dispatch of one event to the handler App.jsx wires it to. -/
def step (now : Nat) (e : Event) (store : Store) (st : AppState) : Out :=
  match e with
  | .authChange u f => authCallback u now f store st
  | .redirectResult r f => handleRedirectResult r now f store st
  | .clickSignUp r se => handleSignUp r se now store st
  | .clickSignIn r => handleSignIn r store st
  | .clickPopup r f => handleGoogleSignInPopup r f now store st
  | .clickRedirect r => handleGoogleSignInRedirect r store st
  | .clickSignOut r => handleSignOut r store st

/-- Sequential, run-to-completion processing of a list of events, as the
single-threaded browser event loop delivers them: each handler finishes
before the next event is dispatched. Accumulates the document-store calls
and the `fetchUserData` invocations of the whole run. -/
def run (now : Nat) (store : Store) (st : AppState) : List Event → Out
  | [] => { store := store, state := st, ops := [], fetchCalls := [] }
  | e :: es =>
      let o := step now e store st
      let rest := run now o.store o.state es
      { store := rest.store, state := rest.state, ops := o.ops ++ rest.ops, fetchCalls := o.fetchCalls ++ rest.fetchCalls }

/-- The uids of the non-null auth-state notifications of an event list, in
order: one entry per auth-state transition that delivers a user. -/
def authFetchUids : List Event → List String
  | [] => []
  | Event.authChange (some u) _ :: es => u.uid :: authFetchUids es
  | _ :: es => authFetchUids es

/-- The store that contains no document at any key. -/
def emptyStore : Store := fun _ => none

/-- A sample uid for concrete instantiations. -/
def uidA : String := "alice"

/-- A sample email address. -/
def emailA : String := "alice@example.com"

/-- A sample auth user record. -/
def recA : UserRecord := { uid := uidA, email := some emailA, displayName := none, photoURL := none }

/-- The initial component state of App.jsx (lines 23-27). -/
def st0 : AppState := { user := none, email := "", password := "", authMessage := "", userData := none }

/-- A sample pre-existing profile document with a nonzero score. -/
def profOld : UserProfile := { uid := uidA, email := none, displayName := none, photoURL := none, createdAt := 1, score := 5 }

/-- A store that already holds `profOld` under `uidA`. -/
def storeOld : Store := Store.setD emptyStore uidA profOld

lemma Store.setD_self (s : Store) (k : String) (v : UserProfile) :
    s.setD k v k = some v := by
  simp [Store.setD]

lemma fetch_present_frame (uid : String) (cur : UserRecord) (now : Nat)
    (f : FsFaults) (store : Store) (st : AppState) (p : UserProfile)
    (hp : store uid = some p) :
    (fetchUserData uid cur now f store st).store = store ∧
    (fetchUserData uid cur now f store st).ops.all StoreOp.isGet = true ∧
    (fetchUserData uid cur now f store st).fetchCalls = [] := by
  obtain ⟨g1, s1, g2⟩ := f
  by_cases h : uid = ""
  · simp [fetchUserData, h]
  · cases g1 <;> simp [fetchUserData, h, hp, StoreOp.isGet]

lemma fetch_present_displays (uid : String) (cur : UserRecord) (now : Nat)
    (store : Store) (st : AppState) (p : UserProfile)
    (h : uid ≠ "") (hp : store uid = some p) :
    (fetchUserData uid cur now noFsFaults store st).state.userData = some p ∧
    (fetchUserData uid cur now noFsFaults store st).state.authMessage =
      "User data fetched for " ++ uid ++ ". Check console." := by
  simp [fetchUserData, noFsFaults, h, hp]

lemma fetch_absent_creates (uid : String) (cur : UserRecord) (now : Nat)
    (store : Store) (st : AppState) (h : uid ≠ "") (ha : store uid = none) :
    (fetchUserData uid cur now noFsFaults store st).store =
      store.setD uid (fetchProfile uid cur now) ∧
    (fetchUserData uid cur now noFsFaults store st).state.userData =
      some (fetchProfile uid cur now) ∧
    (fetchUserData uid cur now noFsFaults store st).ops =
      [StoreOp.get uid, StoreOp.set uid (fetchProfile uid cur now), StoreOp.get uid] ∧
    (fetchUserData uid cur now noFsFaults store st).state.authMessage =
      "New profile created and fetched for " ++ uid ++ "." := by
  simp [fetchUserData, noFsFaults, h, ha, Store.setD]

/-- C1: for a brand-new user identifier (no document under that key), the
profile-ensure routine `fetchUserData` writes a new profile populated from
the supplied user record's email, display-name and photo fields with score
0 and the current timestamp, then immediately re-reads the document and
exposes that same record as the displayed user data. -/
theorem C1_new_uid_creates_and_displays_profile (uid : String)
    (cur : UserRecord) (now : Nat) (store : Store) (st : AppState)
    (h : uid ≠ "") (ha : store uid = none) :
    (fetchUserData uid cur now noFsFaults store st).ops =
      [StoreOp.get uid, StoreOp.set uid (fetchProfile uid cur now), StoreOp.get uid] ∧
    (fetchUserData uid cur now noFsFaults store st).store uid =
      some (fetchProfile uid cur now) ∧
    (fetchUserData uid cur now noFsFaults store st).state.userData =
      some (fetchProfile uid cur now) ∧
    fetchProfile uid cur now =
      { uid := uid, email := jsOrNull cur.email, displayName := jsOrNull cur.displayName,
        photoURL := jsOrNull cur.photoURL, createdAt := now, score := 0 } ∧
    (fetchUserData uid cur now noFsFaults store st).state.authMessage =
      "New profile created and fetched for " ++ uid ++ "." := by
  obtain ⟨h1, h2, h3, h4⟩ := fetch_absent_creates uid cur now store st h ha
  refine ⟨h3, ?_, h2, rfl, h4⟩
  rw [h1, Store.setD_self]

/-- Witness for C1 at a concrete brand-new identifier. -/
theorem C1_witness :
    uidA ≠ "" ∧ emptyStore uidA = none ∧
    ((fetchUserData uidA recA 5 noFsFaults emptyStore st0).ops =
      [StoreOp.get uidA, StoreOp.set uidA (fetchProfile uidA recA 5), StoreOp.get uidA] ∧
    (fetchUserData uidA recA 5 noFsFaults emptyStore st0).store uidA =
      some (fetchProfile uidA recA 5) ∧
    (fetchUserData uidA recA 5 noFsFaults emptyStore st0).state.userData =
      some (fetchProfile uidA recA 5) ∧
    fetchProfile uidA recA 5 =
      { uid := uidA, email := jsOrNull recA.email, displayName := jsOrNull recA.displayName,
        photoURL := jsOrNull recA.photoURL, createdAt := 5, score := 0 } ∧
    (fetchUserData uidA recA 5 noFsFaults emptyStore st0).state.authMessage =
      "New profile created and fetched for " ++ uidA ++ ".") :=
  ⟨by decide, rfl, C1_new_uid_creates_and_displays_profile uidA recA 5 emptyStore st0 (by decide) rfl⟩

/-- C3: for an identifier whose profile document already exists,
`fetchUserData` performs no document-store write under any fault pattern:
the store is left unchanged and every completed operation is a read; with
no faults the existing document is displayed unmodified. -/
theorem C3_existing_uid_only_reads (uid : String) (cur : UserRecord)
    (now : Nat) (f : FsFaults) (store : Store) (st : AppState)
    (p : UserProfile) (h : uid ≠ "") (hp : store uid = some p) :
    (fetchUserData uid cur now f store st).store = store ∧
    (fetchUserData uid cur now f store st).ops.all StoreOp.isGet = true ∧
    (fetchUserData uid cur now noFsFaults store st).state.userData = some p := by
  obtain ⟨h1, h2, _⟩ := fetch_present_frame uid cur now f store st p hp
  obtain ⟨h3, _⟩ := fetch_present_displays uid cur now store st p h hp
  exact ⟨h1, h2, h3⟩

/-- Witness for C3 at a concrete existing identifier. -/
theorem C3_witness :
    uidA ≠ "" ∧ storeOld uidA = some profOld ∧
    ((fetchUserData uidA recA 5 noFsFaults storeOld st0).store = storeOld ∧
    (fetchUserData uidA recA 5 noFsFaults storeOld st0).ops.all StoreOp.isGet = true ∧
    (fetchUserData uidA recA 5 noFsFaults storeOld st0).state.userData = some profOld) :=
  ⟨by decide, by decide,
    C3_existing_uid_only_reads uidA recA 5 noFsFaults storeOld st0 profOld (by decide) (by decide)⟩

lemma signUp_ok_writes (u : UserRecord) (now : Nat) (store : Store) (st : AppState) :
    (handleSignUp (Except.ok u) none now store st).ops =
      [StoreOp.set u.uid (signUpProfile u now)] ∧
    (handleSignUp (Except.ok u) none now store st).store =
      store.setD u.uid (signUpProfile u now) ∧
    (handleSignUp (Except.ok u) none now store st).state.authMessage = "Signing up..." :=
  ⟨rfl, rfl, rfl⟩

lemma redirect_present_frame (u : UserRecord) (now : Nat) (f : GetSetFaults)
    (store : Store) (st : AppState) (p : UserProfile) (hp : store u.uid = some p) :
    (handleRedirectResult (Except.ok (some u)) now f store st).store = store ∧
    (handleRedirectResult (Except.ok (some u)) now f store st).ops.all StoreOp.isGet = true := by
  obtain ⟨g1, s1⟩ := f
  cases g1 <;> simp [handleRedirectResult, hp, StoreOp.isGet]

lemma redirect_absent_creates (u : UserRecord) (now : Nat) (store : Store)
    (st : AppState) (ha : store u.uid = none) :
    (handleRedirectResult (Except.ok (some u)) now noGetSetFaults store st).ops =
      [StoreOp.get u.uid, StoreOp.set u.uid (redirectProfile u now)] ∧
    (handleRedirectResult (Except.ok (some u)) now noGetSetFaults store st).store =
      store.setD u.uid (redirectProfile u now) := by
  simp [handleRedirectResult, noGetSetFaults, ha]

lemma popup_present_frame (u : UserRecord) (f : GetSetFaults) (now : Nat)
    (store : Store) (st : AppState) (p : UserProfile) (hp : store u.uid = some p) :
    (handleGoogleSignInPopup (Except.ok u) f now store st).store = store ∧
    (handleGoogleSignInPopup (Except.ok u) f now store st).ops.all StoreOp.isGet = true := by
  obtain ⟨g1, s1⟩ := f
  cases g1 <;> simp [handleGoogleSignInPopup, hp, StoreOp.isGet]

lemma popup_absent_creates (u : UserRecord) (now : Nat) (store : Store)
    (st : AppState) (ha : store u.uid = none) :
    (handleGoogleSignInPopup (Except.ok u) noGetSetFaults now store st).ops =
      [StoreOp.get u.uid, StoreOp.set u.uid (popupProfile u now)] ∧
    (handleGoogleSignInPopup (Except.ok u) noGetSetFaults now store st).store =
      store.setD u.uid (popupProfile u now) := by
  simp [handleGoogleSignInPopup, noGetSetFaults, ha]

/-- Counterexample to C2: on the email/password sign-up path the document
write is issued with no prior read. With a profile already stored under
`uidA`, a successful sign-up performs exactly one operation, a `setDoc`
(no `getDoc` precedes it), and overwrites the existing document with a
fresh score-0 profile: the profile is not created exactly once and the
write was not guarded by a read confirming absence. -/
theorem C2_counterexample :
    storeOld uidA = some profOld ∧
    (handleSignUp (Except.ok recA) none 7 storeOld st0).ops =
      [StoreOp.set uidA (signUpProfile recA 7)] ∧
    (handleSignUp (Except.ok recA) none 7 storeOld st0).store uidA =
      some (signUpProfile recA 7) ∧
    signUpProfile recA 7 ≠ profOld := by
  refine ⟨by decide, by decide, by decide, by decide⟩

/-- C2 amended: the auth-state (`fetchUserData`), redirect-result and popup
paths perform a read-if-absent-else-create upsert: when the document exists
they never write, and when it is absent the write is issued immediately
after the read that found it absent. The email/password sign-up path is the
exception: on success it writes the profile unconditionally, with no prior
read, overwriting any existing document wholesale. -/
theorem C2_amended_upsert_except_signup :
    (∀ (uid : String) (cur : UserRecord) (now : Nat) (f : FsFaults)
      (store : Store) (st : AppState) (p : UserProfile), store uid = some p →
      (fetchUserData uid cur now f store st).store = store ∧
      (fetchUserData uid cur now f store st).ops.all StoreOp.isGet = true) ∧
    (∀ (uid : String) (cur : UserRecord) (now : Nat) (store : Store)
      (st : AppState), uid ≠ "" → store uid = none →
      (fetchUserData uid cur now noFsFaults store st).ops =
        [StoreOp.get uid, StoreOp.set uid (fetchProfile uid cur now), StoreOp.get uid]) ∧
    (∀ (u : UserRecord) (now : Nat) (f : GetSetFaults) (store : Store)
      (st : AppState) (p : UserProfile), store u.uid = some p →
      (handleRedirectResult (Except.ok (some u)) now f store st).store = store ∧
      (handleRedirectResult (Except.ok (some u)) now f store st).ops.all StoreOp.isGet = true) ∧
    (∀ (u : UserRecord) (now : Nat) (store : Store) (st : AppState),
      store u.uid = none →
      (handleRedirectResult (Except.ok (some u)) now noGetSetFaults store st).ops =
        [StoreOp.get u.uid, StoreOp.set u.uid (redirectProfile u now)]) ∧
    (∀ (u : UserRecord) (now : Nat) (f : GetSetFaults) (store : Store)
      (st : AppState) (p : UserProfile), store u.uid = some p →
      (handleGoogleSignInPopup (Except.ok u) f now store st).store = store ∧
      (handleGoogleSignInPopup (Except.ok u) f now store st).ops.all StoreOp.isGet = true) ∧
    (∀ (u : UserRecord) (now : Nat) (store : Store) (st : AppState),
      store u.uid = none →
      (handleGoogleSignInPopup (Except.ok u) noGetSetFaults now store st).ops =
        [StoreOp.get u.uid, StoreOp.set u.uid (popupProfile u now)]) ∧
    (∀ (u : UserRecord) (now : Nat) (store : Store) (st : AppState),
      (handleSignUp (Except.ok u) none now store st).ops =
        [StoreOp.set u.uid (signUpProfile u now)] ∧
      (handleSignUp (Except.ok u) none now store st).store =
        store.setD u.uid (signUpProfile u now)) := by
  refine ⟨?_, ?_, ?_, ?_, ?_, ?_, ?_⟩
  · intro uid cur now f store st p hp
    obtain ⟨h1, h2, _⟩ := fetch_present_frame uid cur now f store st p hp
    exact ⟨h1, h2⟩
  · intro uid cur now store st h ha
    exact (fetch_absent_creates uid cur now store st h ha).2.2.1
  · intro u now f store st p hp
    exact redirect_present_frame u now f store st p hp
  · intro u now store st ha
    exact (redirect_absent_creates u now store st ha).1
  · intro u now f store st p hp
    exact popup_present_frame u f now store st p hp
  · intro u now store st ha
    exact (popup_absent_creates u now store st ha).1
  · intro u now store st
    exact ⟨(signUp_ok_writes u now store st).1, (signUp_ok_writes u now store st).2.1⟩

/-- Witness for the amended C2 at concrete inputs. -/
theorem C2_amended_witness :
    (storeOld uidA = some profOld ∧
      ((fetchUserData uidA recA 5 noFsFaults storeOld st0).store = storeOld ∧
       (fetchUserData uidA recA 5 noFsFaults storeOld st0).ops.all StoreOp.isGet = true)) ∧
    (uidA ≠ "" ∧ emptyStore uidA = none ∧
      (fetchUserData uidA recA 5 noFsFaults emptyStore st0).ops =
        [StoreOp.get uidA, StoreOp.set uidA (fetchProfile uidA recA 5), StoreOp.get uidA]) ∧
    (emptyStore recA.uid = none ∧
      (handleGoogleSignInPopup (Except.ok recA) noGetSetFaults 5 emptyStore st0).ops =
        [StoreOp.get recA.uid, StoreOp.set recA.uid (popupProfile recA 5)]) ∧
    (emptyStore recA.uid = none ∧
      (handleRedirectResult (Except.ok (some recA)) 5 noGetSetFaults emptyStore st0).ops =
        [StoreOp.get recA.uid, StoreOp.set recA.uid (redirectProfile recA 5)]) ∧
    (handleSignUp (Except.ok recA) none 5 emptyStore st0).ops =
      [StoreOp.set recA.uid (signUpProfile recA 5)] :=
  ⟨⟨by decide, C2_amended_upsert_except_signup.1 uidA recA 5 noFsFaults storeOld st0 profOld (by decide)⟩,
   ⟨by decide, rfl, C2_amended_upsert_except_signup.2.1 uidA recA 5 emptyStore st0 (by decide) rfl⟩,
   ⟨rfl, C2_amended_upsert_except_signup.2.2.2.2.2.1 recA 5 emptyStore st0 rfl⟩,
   ⟨rfl, C2_amended_upsert_except_signup.2.2.2.1 recA 5 emptyStore st0 rfl⟩,
   (C2_amended_upsert_except_signup.2.2.2.2.2.2 recA 5 emptyStore st0).1⟩

/-- C4: every failure of an Auth Provider call or a Document Store call
inside a handler is caught at that handler's boundary and converted into a
displayed status string of the form `prefix ++ message`, so the status
contains the error's message text. Propagation is impossible in this
embedding because every handler is a total function: each `catch` branch of
the source returns a state instead of re-throwing. The conjuncts cover, in
order: sign-up (create fails; profile write fails), sign-in, popup sign-in
(provider fails; read fails; conditional write fails), redirect start,
sign-out, redirect-result consumption (consume fails; read fails;
conditional write fails), and the three Firestore calls of `fetchUserData`. -/
theorem C4_failures_become_status_strings :
    (∀ (m : String) (se : Option String) (now : Nat) (store : Store) (st : AppState),
      (handleSignUp (Except.error m) se now store st).state.authMessage = "Sign Up Error: " ++ m) ∧
    (∀ (m : String) (u : UserRecord) (now : Nat) (store : Store) (st : AppState),
      (handleSignUp (Except.ok u) (some m) now store st).state.authMessage = "Sign Up Error: " ++ m) ∧
    (∀ (m : String) (store : Store) (st : AppState),
      (handleSignIn (Except.error m) store st).state.authMessage = "Sign In Error: " ++ m) ∧
    (∀ (m : String) (f : GetSetFaults) (now : Nat) (store : Store) (st : AppState),
      (handleGoogleSignInPopup (Except.error m) f now store st).state.authMessage =
        "Google Sign In Error (Popup): " ++ m) ∧
    (∀ (m : String) (u : UserRecord) (s1 : Option String) (now : Nat) (store : Store) (st : AppState),
      (handleGoogleSignInPopup (Except.ok u) ⟨some m, s1⟩ now store st).state.authMessage =
        "Google Sign In Error (Popup): " ++ m) ∧
    (∀ (m : String) (u : UserRecord) (now : Nat) (store : Store) (st : AppState),
      store u.uid = none →
      (handleGoogleSignInPopup (Except.ok u) ⟨none, some m⟩ now store st).state.authMessage =
        "Google Sign In Error (Popup): " ++ m) ∧
    (∀ (m : String) (store : Store) (st : AppState),
      (handleGoogleSignInRedirect (Except.error m) store st).state.authMessage =
        "Google Sign In Error (Redirect): " ++ m) ∧
    (∀ (m : String) (store : Store) (st : AppState),
      (handleSignOut (Except.error m) store st).state.authMessage = "Sign Out Error: " ++ m) ∧
    (∀ (m : String) (f : GetSetFaults) (now : Nat) (store : Store) (st : AppState),
      (handleRedirectResult (Except.error m) now f store st).state.authMessage =
        "Redirect Sign In Error: " ++ m) ∧
    (∀ (m : String) (u : UserRecord) (s1 : Option String) (now : Nat) (store : Store) (st : AppState),
      (handleRedirectResult (Except.ok (some u)) now ⟨some m, s1⟩ store st).state.authMessage =
        "Redirect Sign In Error: " ++ m) ∧
    (∀ (m : String) (u : UserRecord) (now : Nat) (store : Store) (st : AppState),
      store u.uid = none →
      (handleRedirectResult (Except.ok (some u)) now ⟨none, some m⟩ store st).state.authMessage =
        "Redirect Sign In Error: " ++ m) ∧
    (∀ (m : String) (uid : String) (cur : UserRecord) (now : Nat) (s1 g2 : Option String)
      (store : Store) (st : AppState), uid ≠ "" →
      (fetchUserData uid cur now ⟨some m, s1, g2⟩ store st).state.authMessage =
        "Firestore Data Error: " ++ m) ∧
    (∀ (m : String) (uid : String) (cur : UserRecord) (now : Nat) (g2 : Option String)
      (store : Store) (st : AppState), uid ≠ "" → store uid = none →
      (fetchUserData uid cur now ⟨none, some m, g2⟩ store st).state.authMessage =
        "Firestore Data Error: " ++ m) ∧
    (∀ (m : String) (uid : String) (cur : UserRecord) (now : Nat)
      (store : Store) (st : AppState), uid ≠ "" → store uid = none →
      (fetchUserData uid cur now ⟨none, none, some m⟩ store st).state.authMessage =
        "Firestore Data Error: " ++ m) := by
  refine ⟨?_, ?_, ?_, ?_, ?_, ?_, ?_, ?_, ?_, ?_, ?_, ?_, ?_, ?_⟩
  · intro m se now store st; rfl
  · intro m u now store st; rfl
  · intro m store st; rfl
  · intro m f now store st; rfl
  · intro m u s1 now store st; rfl
  · intro m u now store st ha; simp [handleGoogleSignInPopup, ha]
  · intro m store st; rfl
  · intro m store st; rfl
  · intro m f now store st; rfl
  · intro m u s1 now store st; rfl
  · intro m u now store st ha; simp [handleRedirectResult, ha]
  · intro m uid cur now s1 g2 store st h; simp [fetchUserData, h]
  · intro m uid cur now g2 store st h ha; simp [fetchUserData, h, ha]
  · intro m uid cur now store st h ha; simp [fetchUserData, h, ha]

/-- Witness for C4: each failure case instantiated at a concrete message
and input. -/
theorem C4_witness :
    (handleSignUp (Except.error emailA) none 5 emptyStore st0).state.authMessage =
      "Sign Up Error: " ++ emailA ∧
    (handleSignUp (Except.ok recA) (some emailA) 5 emptyStore st0).state.authMessage =
      "Sign Up Error: " ++ emailA ∧
    (handleSignIn (Except.error emailA) emptyStore st0).state.authMessage =
      "Sign In Error: " ++ emailA ∧
    (handleGoogleSignInPopup (Except.error emailA) noGetSetFaults 5 emptyStore st0).state.authMessage =
      "Google Sign In Error (Popup): " ++ emailA ∧
    (handleGoogleSignInPopup (Except.ok recA) ⟨some emailA, none⟩ 5 emptyStore st0).state.authMessage =
      "Google Sign In Error (Popup): " ++ emailA ∧
    (emptyStore recA.uid = none ∧
      (handleGoogleSignInPopup (Except.ok recA) ⟨none, some emailA⟩ 5 emptyStore st0).state.authMessage =
        "Google Sign In Error (Popup): " ++ emailA) ∧
    (handleGoogleSignInRedirect (Except.error emailA) emptyStore st0).state.authMessage =
      "Google Sign In Error (Redirect): " ++ emailA ∧
    (handleSignOut (Except.error emailA) emptyStore st0).state.authMessage =
      "Sign Out Error: " ++ emailA ∧
    (handleRedirectResult (Except.error emailA) 5 noGetSetFaults emptyStore st0).state.authMessage =
      "Redirect Sign In Error: " ++ emailA ∧
    (handleRedirectResult (Except.ok (some recA)) 5 ⟨some emailA, none⟩ emptyStore st0).state.authMessage =
      "Redirect Sign In Error: " ++ emailA ∧
    (emptyStore recA.uid = none ∧
      (handleRedirectResult (Except.ok (some recA)) 5 ⟨none, some emailA⟩ emptyStore st0).state.authMessage =
        "Redirect Sign In Error: " ++ emailA) ∧
    (uidA ≠ "" ∧
      (fetchUserData uidA recA 5 ⟨some emailA, none, none⟩ emptyStore st0).state.authMessage =
        "Firestore Data Error: " ++ emailA) ∧
    (uidA ≠ "" ∧ emptyStore uidA = none ∧
      (fetchUserData uidA recA 5 ⟨none, some emailA, none⟩ emptyStore st0).state.authMessage =
        "Firestore Data Error: " ++ emailA) ∧
    (uidA ≠ "" ∧ emptyStore uidA = none ∧
      (fetchUserData uidA recA 5 ⟨none, none, some emailA⟩ emptyStore st0).state.authMessage =
        "Firestore Data Error: " ++ emailA) :=
  ⟨C4_failures_become_status_strings.1 emailA none 5 emptyStore st0,
   C4_failures_become_status_strings.2.1 emailA recA 5 emptyStore st0,
   C4_failures_become_status_strings.2.2.1 emailA emptyStore st0,
   C4_failures_become_status_strings.2.2.2.1 emailA noGetSetFaults 5 emptyStore st0,
   C4_failures_become_status_strings.2.2.2.2.1 emailA recA none 5 emptyStore st0,
   ⟨rfl, C4_failures_become_status_strings.2.2.2.2.2.1 emailA recA 5 emptyStore st0 rfl⟩,
   C4_failures_become_status_strings.2.2.2.2.2.2.1 emailA emptyStore st0,
   C4_failures_become_status_strings.2.2.2.2.2.2.2.1 emailA emptyStore st0,
   C4_failures_become_status_strings.2.2.2.2.2.2.2.2.1 emailA noGetSetFaults 5 emptyStore st0,
   C4_failures_become_status_strings.2.2.2.2.2.2.2.2.2.1 emailA recA none 5 emptyStore st0,
   ⟨rfl, C4_failures_become_status_strings.2.2.2.2.2.2.2.2.2.2.1 emailA recA 5 emptyStore st0 rfl⟩,
   ⟨by decide, C4_failures_become_status_strings.2.2.2.2.2.2.2.2.2.2.2.1 emailA uidA recA 5 none none emptyStore st0 (by decide)⟩,
   ⟨by decide, rfl, C4_failures_become_status_strings.2.2.2.2.2.2.2.2.2.2.2.2.1 emailA uidA recA 5 none emptyStore st0 (by decide) rfl⟩,
   ⟨by decide, rfl, C4_failures_become_status_strings.2.2.2.2.2.2.2.2.2.2.2.2.2 emailA uidA recA 5 emptyStore st0 (by decide) rfl⟩⟩

/-- C5: a failing email/password sign-in leaves the current-user state
untouched (the handler never assigns the user reference at all, on failure
or success) and sets the displayed status to the sign-in error prefix
followed by the failure's message text. -/
theorem C5_failed_signin_leaves_user_unset :
    (∀ (m : String) (store : Store) (st : AppState),
      (handleSignIn (Except.error m) store st).state.user = st.user ∧
      (handleSignIn (Except.error m) store st).state.authMessage = "Sign In Error: " ++ m ∧
      (handleSignIn (Except.error m) store st).state.userData = st.userData ∧
      (handleSignIn (Except.error m) store st).ops = []) ∧
    (∀ (r : Except String Unit) (store : Store) (st : AppState),
      (handleSignIn r store st).state.user = st.user) := by
  constructor
  · intro m store st; exact ⟨rfl, rfl, rfl, rfl⟩
  · intro r store st; cases r <;> rfl

/-- C6: an auth-state notification carrying a null user (as delivered after
a sign-out) clears the displayed profile data and the current-user
reference, whatever was loaded before, sets the logged-out message, and
touches neither the store nor `fetchUserData`. -/
theorem C6_signout_notification_clears_profile (now : Nat) (f : FsFaults)
    (store : Store) (st : AppState) :
    (authCallback none now f store st).state.userData = none ∧
    (authCallback none now f store st).state.user = none ∧
    (authCallback none now f store st).state.authMessage = "Not logged in" ∧
    (authCallback none now f store st).store = store ∧
    (authCallback none now f store st).ops = [] ∧
    (authCallback none now f store st).fetchCalls = [] :=
  ⟨rfl, rfl, rfl, rfl, rfl, rfl⟩

lemma popup_state_frame (r : Except String UserRecord) (f : GetSetFaults)
    (now : Nat) (store : Store) (st : AppState) :
    (handleGoogleSignInPopup r f now store st).state.user = st.user ∧
    (handleGoogleSignInPopup r f now store st).state.userData = st.userData ∧
    (handleGoogleSignInPopup r f now store st).fetchCalls = [] := by
  obtain ⟨g1, s1⟩ := f
  cases r with
  | error m => exact ⟨rfl, rfl, rfl⟩
  | ok u =>
    cases g1 with
    | some m => exact ⟨rfl, rfl, rfl⟩
    | none =>
      cases hs : store u.uid with
      | some p => simp [handleGoogleSignInPopup, hs]
      | none =>
        cases s1 with
        | some m => simp [handleGoogleSignInPopup, hs]
        | none => simp [handleGoogleSignInPopup, hs]

lemma signUp_state_frame (r : Except String UserRecord) (se : Option String)
    (now : Nat) (store : Store) (st : AppState) :
    (handleSignUp r se now store st).state.user = st.user ∧
    (handleSignUp r se now store st).state.userData = st.userData ∧
    (handleSignUp r se now store st).fetchCalls = [] := by
  cases r with
  | error m => exact ⟨rfl, rfl, rfl⟩
  | ok u => cases se with
    | some m => exact ⟨rfl, rfl, rfl⟩
    | none => exact ⟨rfl, rfl, rfl⟩

lemma popup_ok_message (u : UserRecord) (now : Nat) (store : Store) (st : AppState) :
    (handleGoogleSignInPopup (Except.ok u) noGetSetFaults now store st).state.authMessage =
      "Signing in with Google (Popup)..." := by
  cases hs : store u.uid with
  | some p => simp [handleGoogleSignInPopup, noGetSetFaults, hs]
  | none => simp [handleGoogleSignInPopup, noGetSetFaults, hs]

/-- Counterexample to C7: the popup sign-in form handler itself performs a
Document Store operation. With the profile already stored, a successful
popup sign-in issues a `getDoc` from inside the handler, so its completed
document-store operation list is non-empty, contradicting the claim that no
form handler performs Document Store operations. (The sign-up handler even
issues a `setDoc`.) -/
theorem C7_counterexample :
    (handleGoogleSignInPopup (Except.ok recA) noGetSetFaults 5 storeOld st0).ops =
      [StoreOp.get uidA] ∧
    (handleGoogleSignInPopup (Except.ok recA) noGetSetFaults 5 storeOld st0).ops ≠ [] ∧
    (handleSignUp (Except.ok recA) none 5 storeOld st0).ops ≠ [] := by
  refine ⟨by decide, by decide, by decide⟩

/-- C7 amended: every form handler sets a transient status message, invokes
its Auth Provider call and leaves the user and profile state to the
auth-state subscription (none assigns `user` or `userData`, and none calls
`fetchUserData`); the sign-in, redirect and sign-out handlers perform no
Document Store operation, but the sign-up handler writes the profile
document itself on success and the popup handler reads the profile and
writes it when absent. -/
theorem C7_amended_handlers_defer_to_subscription :
    (∀ (r : Except String Unit) (store : Store) (st : AppState),
      (handleSignIn r store st).ops = [] ∧
      (handleSignIn r store st).fetchCalls = [] ∧
      (handleSignIn r store st).state.user = st.user ∧
      (handleSignIn r store st).state.userData = st.userData ∧
      (handleSignIn r store st).store = store) ∧
    (∀ (r : Except String Unit) (store : Store) (st : AppState),
      (handleGoogleSignInRedirect r store st).ops = [] ∧
      (handleGoogleSignInRedirect r store st).fetchCalls = [] ∧
      (handleGoogleSignInRedirect r store st).state.user = st.user ∧
      (handleGoogleSignInRedirect r store st).state.userData = st.userData ∧
      (handleGoogleSignInRedirect r store st).store = store) ∧
    (∀ (r : Except String Unit) (store : Store) (st : AppState),
      (handleSignOut r store st).ops = [] ∧
      (handleSignOut r store st).fetchCalls = [] ∧
      (handleSignOut r store st).state.user = st.user ∧
      (handleSignOut r store st).state.userData = st.userData ∧
      (handleSignOut r store st).store = store) ∧
    (∀ (r : Except String UserRecord) (se : Option String) (now : Nat)
      (store : Store) (st : AppState),
      (handleSignUp r se now store st).state.user = st.user ∧
      (handleSignUp r se now store st).state.userData = st.userData ∧
      (handleSignUp r se now store st).fetchCalls = []) ∧
    (∀ (r : Except String UserRecord) (f : GetSetFaults) (now : Nat)
      (store : Store) (st : AppState),
      (handleGoogleSignInPopup r f now store st).state.user = st.user ∧
      (handleGoogleSignInPopup r f now store st).state.userData = st.userData ∧
      (handleGoogleSignInPopup r f now store st).fetchCalls = []) ∧
    (∀ (store : Store) (st : AppState),
      (handleSignIn (Except.ok ()) store st).state.authMessage = "Signing in..." ∧
      (handleGoogleSignInRedirect (Except.ok ()) store st).state.authMessage =
        "Redirecting for Google Sign In..." ∧
      (handleSignOut (Except.ok ()) store st).state.authMessage = "Signing out...") ∧
    (∀ (u : UserRecord) (now : Nat) (store : Store) (st : AppState),
      (handleSignUp (Except.ok u) none now store st).state.authMessage = "Signing up..." ∧
      (handleGoogleSignInPopup (Except.ok u) noGetSetFaults now store st).state.authMessage =
        "Signing in with Google (Popup)...") ∧
    (∀ (u : UserRecord) (now : Nat) (store : Store) (st : AppState),
      (handleSignUp (Except.ok u) none now store st).ops =
        [StoreOp.set u.uid (signUpProfile u now)]) := by
  refine ⟨?_, ?_, ?_, ?_, ?_, ?_, ?_, ?_⟩
  · intro r store st; cases r <;> exact ⟨rfl, rfl, rfl, rfl, rfl⟩
  · intro r store st; cases r <;> exact ⟨rfl, rfl, rfl, rfl, rfl⟩
  · intro r store st; cases r <;> exact ⟨rfl, rfl, rfl, rfl, rfl⟩
  · intro r se now store st; exact signUp_state_frame r se now store st
  · intro r f now store st; exact popup_state_frame r f now store st
  · intro store st; exact ⟨rfl, rfl, rfl⟩
  · intro u now store st; exact ⟨rfl, popup_ok_message u now store st⟩
  · intro u now store st; exact (signUp_ok_writes u now store st).1

/-- C9: a Document Store error inside `fetchUserData` clears the displayed
profile data (any previously loaded profile becomes null) and sets the
status to the Firestore error string, at each of the three Firestore call
sites of the routine. -/
theorem C9_fetch_error_clears_displayed_profile :
    (∀ (m : String) (uid : String) (cur : UserRecord) (now : Nat)
      (s1 g2 : Option String) (store : Store) (st : AppState), uid ≠ "" →
      (fetchUserData uid cur now ⟨some m, s1, g2⟩ store st).state.userData = none ∧
      (fetchUserData uid cur now ⟨some m, s1, g2⟩ store st).state.authMessage =
        "Firestore Data Error: " ++ m) ∧
    (∀ (m : String) (uid : String) (cur : UserRecord) (now : Nat)
      (g2 : Option String) (store : Store) (st : AppState),
      uid ≠ "" → store uid = none →
      (fetchUserData uid cur now ⟨none, some m, g2⟩ store st).state.userData = none ∧
      (fetchUserData uid cur now ⟨none, some m, g2⟩ store st).state.authMessage =
        "Firestore Data Error: " ++ m) ∧
    (∀ (m : String) (uid : String) (cur : UserRecord) (now : Nat)
      (store : Store) (st : AppState), uid ≠ "" → store uid = none →
      (fetchUserData uid cur now ⟨none, none, some m⟩ store st).state.userData = none ∧
      (fetchUserData uid cur now ⟨none, none, some m⟩ store st).state.authMessage =
        "Firestore Data Error: " ++ m) := by
  refine ⟨?_, ?_, ?_⟩
  · intro m uid cur now s1 g2 store st h; simp [fetchUserData, h]
  · intro m uid cur now g2 store st h ha; simp [fetchUserData, h, ha]
  · intro m uid cur now store st h ha; simp [fetchUserData, h, ha]

/-- Witness for C9: a previously loaded profile is cleared on each of the
three failing calls, starting from a state that displays `profOld`. -/
theorem C9_witness :
    (uidA ≠ "" ∧
      (fetchUserData uidA recA 5 ⟨some emailA, none, none⟩ emptyStore { st0 with userData := some profOld }).state.userData = none ∧
      (fetchUserData uidA recA 5 ⟨some emailA, none, none⟩ emptyStore { st0 with userData := some profOld }).state.authMessage =
        "Firestore Data Error: " ++ emailA) ∧
    (uidA ≠ "" ∧ emptyStore uidA = none ∧
      (fetchUserData uidA recA 5 ⟨none, some emailA, none⟩ emptyStore { st0 with userData := some profOld }).state.userData = none ∧
      (fetchUserData uidA recA 5 ⟨none, some emailA, none⟩ emptyStore { st0 with userData := some profOld }).state.authMessage =
        "Firestore Data Error: " ++ emailA) ∧
    (uidA ≠ "" ∧ emptyStore uidA = none ∧
      (fetchUserData uidA recA 5 ⟨none, none, some emailA⟩ emptyStore { st0 with userData := some profOld }).state.userData = none ∧
      (fetchUserData uidA recA 5 ⟨none, none, some emailA⟩ emptyStore { st0 with userData := some profOld }).state.authMessage =
        "Firestore Data Error: " ++ emailA) :=
  ⟨⟨by decide, C9_fetch_error_clears_displayed_profile.1 emailA uidA recA 5 none none emptyStore { st0 with userData := some profOld } (by decide)⟩,
   ⟨by decide, rfl, (C9_fetch_error_clears_displayed_profile.2.1 emailA uidA recA 5 none emptyStore { st0 with userData := some profOld } (by decide) rfl).1,
     (C9_fetch_error_clears_displayed_profile.2.1 emailA uidA recA 5 none emptyStore { st0 with userData := some profOld } (by decide) rfl).2⟩,
   ⟨by decide, rfl, (C9_fetch_error_clears_displayed_profile.2.2 emailA uidA recA 5 emptyStore { st0 with userData := some profOld } (by decide) rfl).1,
     (C9_fetch_error_clears_displayed_profile.2.2 emailA uidA recA 5 emptyStore { st0 with userData := some profOld } (by decide) rfl).2⟩⟩

/-- C10: the four write sites build profile documents of the identical
shape. The documents built at the redirect-result, sign-up and popup sites
coincide with the one built inside `fetchUserData` at the same key; every
such document carries a `uid` field equal to the document key it is written
under, the email, display-name and photo fields of the user record each
defaulted to null when absent (or empty), the `createdAt` timestamp, and
score exactly 0; and each handler writes exactly that document at the key. -/
theorem C10_all_write_sites_same_shape :
    (∀ (uid : String) (cur : UserRecord) (now : Nat),
      fetchProfile uid cur now =
        { uid := uid, email := jsOrNull cur.email, displayName := jsOrNull cur.displayName,
          photoURL := jsOrNull cur.photoURL, createdAt := now, score := 0 }) ∧
    (∀ (u : UserRecord) (now : Nat),
      redirectProfile u now = fetchProfile u.uid u now ∧
      signUpProfile u now = fetchProfile u.uid u now ∧
      popupProfile u now = fetchProfile u.uid u now) ∧
    (∀ (uid : String) (cur : UserRecord) (now : Nat),
      (fetchProfile uid cur now).uid = uid ∧
      (fetchProfile uid cur now).score = 0 ∧
      (fetchProfile uid cur now).createdAt = now) ∧
    jsOrNull none = none ∧
    (∀ (uid : String) (cur : UserRecord) (now : Nat) (store : Store) (st : AppState),
      uid ≠ "" → store uid = none →
      (fetchUserData uid cur now noFsFaults store st).ops =
        [StoreOp.get uid, StoreOp.set uid (fetchProfile uid cur now), StoreOp.get uid]) ∧
    (∀ (u : UserRecord) (now : Nat) (store : Store) (st : AppState),
      store u.uid = none →
      (handleRedirectResult (Except.ok (some u)) now noGetSetFaults store st).ops =
        [StoreOp.get u.uid, StoreOp.set u.uid (redirectProfile u now)]) ∧
    (∀ (u : UserRecord) (now : Nat) (store : Store) (st : AppState),
      store u.uid = none →
      (handleGoogleSignInPopup (Except.ok u) noGetSetFaults now store st).ops =
        [StoreOp.get u.uid, StoreOp.set u.uid (popupProfile u now)]) ∧
    (∀ (u : UserRecord) (now : Nat) (store : Store) (st : AppState),
      (handleSignUp (Except.ok u) none now store st).ops =
        [StoreOp.set u.uid (signUpProfile u now)]) := by
  refine ⟨?_, ?_, ?_, rfl, ?_, ?_, ?_, ?_⟩
  · intro uid cur now; rfl
  · intro u now; exact ⟨rfl, rfl, rfl⟩
  · intro uid cur now; exact ⟨rfl, rfl, rfl⟩
  · intro uid cur now store st h ha
    exact (fetch_absent_creates uid cur now store st h ha).2.2.1
  · intro u now store st ha
    exact (redirect_absent_creates u now store st ha).1
  · intro u now store st ha
    exact (popup_absent_creates u now store st ha).1
  · intro u now store st
    exact (signUp_ok_writes u now store st).1

/-- Witness for C10: the hypothesis-bearing conjuncts instantiated over the
empty store at a concrete user record. -/
theorem C10_witness :
    (uidA ≠ "" ∧ emptyStore uidA = none ∧
      (fetchUserData uidA recA 5 noFsFaults emptyStore st0).ops =
        [StoreOp.get uidA, StoreOp.set uidA (fetchProfile uidA recA 5), StoreOp.get uidA]) ∧
    (emptyStore recA.uid = none ∧
      (handleRedirectResult (Except.ok (some recA)) 5 noGetSetFaults emptyStore st0).ops =
        [StoreOp.get recA.uid, StoreOp.set recA.uid (redirectProfile recA 5)]) ∧
    (emptyStore recA.uid = none ∧
      (handleGoogleSignInPopup (Except.ok recA) noGetSetFaults 5 emptyStore st0).ops =
        [StoreOp.get recA.uid, StoreOp.set recA.uid (popupProfile recA 5)]) ∧
    (handleSignUp (Except.ok recA) none 5 emptyStore st0).ops =
      [StoreOp.set recA.uid (signUpProfile recA 5)] ∧
    redirectProfile recA 5 = fetchProfile recA.uid recA 5 :=
  ⟨⟨by decide, rfl, C10_all_write_sites_same_shape.2.2.2.2.1 uidA recA 5 emptyStore st0 (by decide) rfl⟩,
   ⟨rfl, C10_all_write_sites_same_shape.2.2.2.2.2.1 recA 5 emptyStore st0 rfl⟩,
   ⟨rfl, C10_all_write_sites_same_shape.2.2.2.2.2.2.1 recA 5 emptyStore st0 rfl⟩,
   C10_all_write_sites_same_shape.2.2.2.2.2.2.2 recA 5 emptyStore st0,
   (C10_all_write_sites_same_shape.2.1 recA 5).1⟩

lemma redirect_fetchCalls (r : Except String (Option UserRecord)) (now : Nat)
    (f : GetSetFaults) (store : Store) (st : AppState) :
    (handleRedirectResult r now f store st).fetchCalls = [] := by
  obtain ⟨g1, s1⟩ := f
  cases r with
  | error m => rfl
  | ok o =>
    cases o with
    | none => rfl
    | some u =>
      cases g1 with
      | some m => rfl
      | none =>
        cases hs : store u.uid with
        | some p => simp [handleRedirectResult, hs]
        | none =>
          cases s1 with
          | some m => simp [handleRedirectResult, hs]
          | none => simp [handleRedirectResult, hs]

lemma signIn_fetchCalls (r : Except String Unit) (store : Store) (st : AppState) :
    (handleSignIn r store st).fetchCalls = [] := by
  cases r <;> rfl

lemma gRedirect_fetchCalls (r : Except String Unit) (store : Store) (st : AppState) :
    (handleGoogleSignInRedirect r store st).fetchCalls = [] := by
  cases r <;> rfl

lemma signOut_fetchCalls (r : Except String Unit) (store : Store) (st : AppState) :
    (handleSignOut r store st).fetchCalls = [] := by
  cases r <;> rfl

lemma step_fetchCalls (now : Nat) (e : Event) (store : Store) (st : AppState) :
    (step now e store st).fetchCalls = authFetchUids [e] := by
  cases e with
  | authChange u f =>
    cases u with
    | some u => rfl
    | none => rfl
  | redirectResult r f =>
    rw [show step now (Event.redirectResult r f) store st = handleRedirectResult r now f store st from rfl, redirect_fetchCalls]
    rfl
  | clickSignUp r se =>
    rw [show step now (Event.clickSignUp r se) store st = handleSignUp r se now store st from rfl,
      (signUp_state_frame r se now store st).2.2]
    rfl
  | clickSignIn r =>
    rw [show step now (Event.clickSignIn r) store st = handleSignIn r store st from rfl, signIn_fetchCalls]
    rfl
  | clickPopup r f =>
    rw [show step now (Event.clickPopup r f) store st = handleGoogleSignInPopup r f now store st from rfl,
      (popup_state_frame r f now store st).2.2]
    rfl
  | clickRedirect r =>
    rw [show step now (Event.clickRedirect r) store st = handleGoogleSignInRedirect r store st from rfl, gRedirect_fetchCalls]
    rfl
  | clickSignOut r =>
    rw [show step now (Event.clickSignOut r) store st = handleSignOut r store st from rfl, signOut_fetchCalls]
    rfl

lemma authFetchUids_cons (e : Event) (es : List Event) :
    authFetchUids (e :: es) = authFetchUids [e] ++ authFetchUids es := by
  cases e with
  | authChange u f =>
    cases u with
    | some u => rfl
    | none => rfl
  | redirectResult r f => rfl
  | clickSignUp r se => rfl
  | clickSignIn r => rfl
  | clickPopup r f => rfl
  | clickRedirect r => rfl
  | clickSignOut r => rfl

/-- C8: over any sequential run of the event loop, the list of
`fetchUserData` invocations is exactly the list of non-null auth-state
transitions, in order: each transition that delivers a user triggers the
profile-ensure routine exactly once, a transition to null never triggers
it, and no other event (redirect-result consumption or any button click)
ever invokes it. Sequentiality itself is the run-to-completion semantics of
`run`, which dispatches one event at a time as the single-threaded event
loop does. -/
theorem C8_fetch_invoked_once_per_transition (now : Nat) (es : List Event) :
    ∀ (store : Store) (st : AppState),
      (run now store st es).fetchCalls = authFetchUids es := by
  induction es with
  | nil => intro store st; rfl
  | cons e es ih =>
    intro store st
    have h1 : (run now store st (e :: es)).fetchCalls =
        (step now e store st).fetchCalls ++
          (run now (step now e store st).store (step now e store st).state es).fetchCalls := rfl
    rw [h1, ih, step_fetchCalls, ← authFetchUids_cons]

end AppJsx
